import Mathlib

/-!
Shallow embedding of `src/headsetcontrol_qttray/HeadsetControl_QtTray.py`:
the `Headset` state model (`run_command`, `charge_status`, the constructor),
the icon glyph/colour selection of `Application.create_icon`, and the menu
construction of `Tray.set_menu`.  The external `headsetcontrol` subprocess is
modelled by a `ProcResult` (exit code and decoded stdout) passed explicitly to
each invocation.
-/

/-- State of the `Headset` Python object: `capabilities` (None or the raw
capability string), `connected`, and `charge` (a Python int, so `Int`). -/
structure HeadsetState where
  capabilities : Option String
  connected : Bool
  charge : Int
deriving DecidableEq, Repr

/-- Result of one `subprocess.run` call on the external binary: the exit code
and the UTF-8 decoded standard output. -/
structure ProcResult where
  returncode : Int
  stdout : String
deriving DecidableEq, Repr

/-- Helper for Python substring containment: `needle in hay` over char lists. -/
def listIsInfix : List Char → List Char → Bool
  | needle, [] => needle.isEmpty
  | needle, c :: rest => needle.isPrefixOf (c :: rest) || listIsInfix needle rest

/-- Model of the Python string membership test `needle in hay`
(substring containment; the empty needle is contained in every string). -/
def pyStrIn (needle hay : String) : Bool :=
  listIsInfix needle.toList hay.toList

/-- Model of Python `arg0.replace("-", "")`: a one-character pattern with an
empty replacement removes every occurrence of that character. -/
def strip_dashes (arg0 : String) : String :=
  ⟨arg0.toList.filter (fun c => c ≠ '-')⟩

/-- Digit-string to `Nat` parse used by `pyIntParse`: all characters must be
decimal digits and there must be at least one. -/
def parseDigits (cs : List Char) : Option Nat :=
  if cs.isEmpty then none
  else if cs.all Char.isDigit then
    some (cs.foldl (fun n c => n * 10 + (c.toNat - 48)) 0)
  else none

/-- Model of Python `int(output)` on the token shapes the program compares
against (an optional leading minus sign followed by decimal digits); any other
string raises `ValueError`, modelled as `none`.  (Python's `int` additionally
strips surrounding whitespace and accepts `+` and `_`; none of the claims
depend on those inputs.) -/
def pyIntParse (s : String) : Option Int :=
  match s.toList with
  | '-' :: rest => (parseDigits rest).map (fun n => -(n : Int))
  | l => (parseDigits l).map (fun n => (n : Int))

/-- The capability gate at the top of `run_command` (lines 287-294): the call
is rejected when capabilities are still unset and the leading argument is not
the capability query, or when capabilities are set and the leading argument
with all dashes removed does not occur in the capability string. -/
def gate_rejects : Option String → String → Bool
  | none, arg0 => arg0 != "--capabilities"
  | some caps, arg0 => !(pyStrIn (strip_dashes arg0) caps)

/-- Result of one `run_command` call: the post-state (`none` when the
`int(output)` conversion raises `ValueError`, which propagates out of the
method) and whether the external subprocess was actually invoked. -/
structure RunResult where
  state : Option HeadsetState
  invoked : Bool
deriving DecidableEq, Repr

/-- `Headset.run_command` (lines 272-320), with the subprocess outcome `proc`
passed in explicitly.  The argument-validation guard at lines 279-285 is
modelled separately (`run_command_validation`) because its condition is false
for every list, so it never fires on the `List String` arguments used here.
After the capability gate, a non-zero exit code sets `connected := false`; on
exit code 0 a `-b` query parses stdout (`"-2"` clears `connected`, `"-1"`
sets charging, anything else is fed to `int`), a `--capabilities` query stores
stdout verbatim, and every other command leaves the state unchanged. -/
def run_command (s : HeadsetState) (argument_list : List String)
    (proc : ProcResult) : RunResult :=
  let arg0 := argument_list.headD ""
  if gate_rejects s.capabilities arg0 then
    { state := some s, invoked := false }
  else if proc.returncode != 0 then
    { state := some { s with connected := false }, invoked := true }
  else if arg0 == "-b" then
    let output := proc.stdout
    if output == "-2" then
      { state := some { s with connected := false }, invoked := true }
    else if output == "-1" then
      { state := some { s with charge := -1, connected := true }, invoked := true }
    else
      match pyIntParse output with
      | some n => { state := some { s with charge := n, connected := true }, invoked := true }
      | none => { state := none, invoked := true }
  else if arg0 == "--capabilities" then
    { state := some { s with capabilities := some proc.stdout }, invoked := true }
  else
    { state := some s, invoked := true }

/-- `Headset.charge_status` (lines 322-332). -/
def charge_status (s : HeadsetState) : String :=
  if s.charge = -2 then "Disconnected"
  else if s.charge = -1 then "Charging"
  else toString s.charge ++ "%"

/-- The mapping of section 4.2 of the spec, written as a function of the
`charge` integer alone: `-2` to the "Disconnected" label, `-1` to the
"Charging" label, anything else to the percentage label. -/
def chargeStatusSpec (charge : Int) : String :=
  if charge = -2 then "Disconnected"
  else if charge = -1 then "Charging"
  else toString charge ++ "%"

/-- RGBA colour tuple as used by the PIL drawing call. -/
structure RGBA where
  r : Nat
  g : Nat
  b : Nat
  a : Nat
deriving DecidableEq, Repr

/-- Glyph, font size, text position and fill colour chosen by
`Application.create_icon` before rendering. -/
structure IconChoice where
  icon : String
  font_size : Nat
  pos : Int × Int
  color : RGBA
deriving DecidableEq, Repr

/-- Glyph/colour selection of `Application.create_icon` (lines 83-104), a
function of the headset's `connected` and `charge` fields only.  The icon
characters are the private-use font glyphs U+F7CF (disconnected), U+F7CE
(charging plug) and U+F7CD (battery) from the source literals. -/
def create_icon (connected : Bool) (charge : Int) : IconChoice :=
  if !connected then
    { icon := "", font_size := 60, pos := (9, -9), color := ⟨255, 0, 0, 255⟩ }
  else if charge = -1 then
    { icon := "", font_size := 70, pos := (5, -15), color := ⟨0, 255, 150, 255⟩ }
  else
    { icon := "", font_size := 60, pos := (9, -9),
      color :=
        if charge > 80 then ⟨0, 255, 0, 255⟩
        else if charge > 40 then ⟨234, 255, 0, 255⟩
        else if charge > 20 then ⟨255, 90, 0, 255⟩
        else ⟨255, 0, 0, 255⟩ }

/-- The icon colour as section 4.3 of the spec describes it: disconnected red;
charging teal; else green above 80, yellow-green above 40, orange above 20,
red otherwise. -/
def icon_color_spec (connected : Bool) (charge : Int) : RGBA :=
  if connected = false then ⟨255, 0, 0, 255⟩
  else if charge = -1 then ⟨0, 255, 150, 255⟩
  else if charge > 80 then ⟨0, 255, 0, 255⟩
  else if charge > 40 then ⟨234, 255, 0, 255⟩
  else if charge > 20 then ⟨255, 90, 0, 255⟩
  else ⟨255, 0, 0, 255⟩

/-- The glyph as the spec describes it: frown-like glyph when disconnected,
plug glyph when charging, battery glyph otherwise. -/
def icon_glyph_spec (connected : Bool) (charge : Int) : String :=
  if connected = false then ""
  else if charge = -1 then ""
  else ""

/-- Trace of `Headset.__init__` (lines 216-227): the final state, and whether
the capability probe and the battery probe each actually invoked the
subprocess. -/
structure InitTrace where
  final : Option HeadsetState
  capability_probe : Bool
  battery_probe : Bool
deriving DecidableEq, Repr

/-- `Headset.__init__` (lines 216-227): starts from `capabilities = None`,
`connected = False`, `charge = 0`, runs `run_command(["--capabilities","-c"])`
with outcome `capProc`, and then runs `run_command(["-b","-c"])` with outcome
`batProc` only if `self.connected` is true at that point. -/
def headset_init (capProc batProc : ProcResult) : InitTrace :=
  let s0 : HeadsetState := { capabilities := none, connected := false, charge := 0 }
  let r1 := run_command s0 ["--capabilities", "-c"] capProc
  match r1.state with
  | none => { final := none, capability_probe := r1.invoked, battery_probe := false }
  | some s1 =>
    if s1.connected then
      let r2 := run_command s1 ["-b", "-c"] batProc
      { final := r2.state, capability_probe := r1.invoked, battery_probe := r2.invoked }
    else
      { final := some s1, capability_probe := r1.invoked, battery_probe := false }

/-- Identifiers for the `QAction`s (and the sidetone submenu's menu action)
created in `Tray.__init__`. -/
inductive ActionId where
  | quit
  | light_on
  | light_off
  | refresh
  | battery
  | sidetone_off
  | sidetone_low
  | sidetone_med
  | sidetone_high
  | sidetone_max
  | sidetone_submenu
deriving DecidableEq, Repr

/-- Qt's `QWidget.addAction` semantics as documented: the action is appended
to the widget's action list, and adding an action the widget already has does
not add it a second time. -/
def addAction (menu : List ActionId) (a : ActionId) : List ActionId :=
  if a ∈ menu then menu else menu ++ [a]

/-- Visible action lists of the tray's main menu and the sidetone submenu;
both are empty when the `Tray` is constructed. -/
structure MenuState where
  main_menu : List ActionId
  sidetone_menu : List ActionId
deriving DecidableEq, Repr

/-- Capability-gated part of `Tray.set_menu` (lines 177-202), with the three
membership tests on the capability string already evaluated: `hasl` adds the
light actions, `hasb` the refresh action and battery label, `hass` the five
sidetone actions to the submenu and the submenu itself to the main menu
(`QMenu.addMenu` adds the submenu's menu action, with the same
already-present rule as `addAction`). -/
def set_menu_caps (m : MenuState) (hasl hasb hass : Bool) : MenuState :=
  let m := if hasl then
    { m with main_menu := addAction (addAction m.main_menu .light_on) .light_off }
    else m
  let m := if hasb then
    { m with main_menu := addAction (addAction m.main_menu .refresh) .battery }
    else m
  let m := if hass then
    { m with
      sidetone_menu :=
        addAction (addAction (addAction (addAction
          (addAction m.sidetone_menu .sidetone_max) .sidetone_high)
          .sidetone_med) .sidetone_low) .sidetone_off,
      main_menu := addAction m.main_menu .sidetone_submenu }
    else m
  m

/-- `Tray.set_menu` (lines 170-208): when capabilities are set, the entries
for the capability letters `l`, `b`, `s` are added in that order; the quit
action is always added last. -/
def set_menu (m : MenuState) (capabilities : Option String) : MenuState :=
  let m :=
    match capabilities with
    | none => m
    | some caps =>
      set_menu_caps m (pyStrIn "l" caps) (pyStrIn "b" caps) (pyStrIn "s" caps)
  { m with main_menu := addAction m.main_menu .quit }

/-- Python runtime values, as far as the argument-validation guard of
`run_command` can distinguish them: strings, ints, and lists of values. -/
inductive PyVal where
  | str : String → PyVal
  | int : Int → PyVal
  | list : List PyVal → PyVal

/-- Python `isinstance(v, list)`. -/
def isinstance_list : PyVal → Bool
  | .list _ => true
  | _ => false

/-- Python `isinstance(v, str)`. -/
def isinstance_str : PyVal → Bool
  | .str _ => true
  | _ => false

/-- Value of Python `all(isinstance(elem, str) for elem in v)` when `v` is a
list (elementwise test) or a string (iteration yields one-character strings,
so the test is vacuously or elementwise true); never evaluated on other
values because the conjunction in the guard short-circuits. -/
def pyAllStr : PyVal → Bool
  | .list l => l.all isinstance_str
  | .str _ => true
  | .int _ => true

/-- The argument-validation guard of `run_command` (lines 279-285), exactly as
written in the source: `not isinstance(argument_list, list) and
all(isinstance(elem, str) for elem in argument_list)`, with Python's
short-circuiting `and`. -/
def run_command_validation (argument_list : PyVal) : Bool :=
  !(isinstance_list argument_list) && pyAllStr argument_list

/-! Helper lemmas shared by several claim theorems. -/

/-- The subprocess is invoked exactly when the capability gate does not
reject the leading argument. -/
theorem run_command_invoked_eq (s : HeadsetState) (arg0 : String) (rest : List String)
    (proc : ProcResult) :
    (run_command s (arg0 :: rest) proc).invoked = !(gate_rejects s.capabilities arg0) := by
  unfold run_command
  simp only [List.headD_cons]
  cases hg : gate_rejects s.capabilities arg0
  · simp only [Bool.false_eq_true, if_false, Bool.not_false]
    split_ifs <;> first
      | rfl
      | (cases hp : pyIntParse proc.stdout <;> rfl)
  · simp

/-- When the capability gate rejects, `run_command` is a no-op that does not
invoke the subprocess. -/
theorem run_command_rejected (s : HeadsetState) (arg0 : String) (rest : List String)
    (proc : ProcResult) (h : gate_rejects s.capabilities arg0 = true) :
    run_command s (arg0 :: rest) proc = { state := some s, invoked := false } := by
  unfold run_command
  simp [h]

/-- Characterisation of `Headset.__init__`: the capability probe always runs,
its outcome never sets `connected`, so the guarded battery probe never runs. -/
theorem headset_init_eq (capProc batProc : ProcResult) :
    headset_init capProc batProc =
      if capProc.returncode = 0 then
        { final := some ⟨some capProc.stdout, false, 0⟩,
          capability_probe := true, battery_probe := false }
      else
        { final := some ⟨none, false, 0⟩,
          capability_probe := true, battery_probe := false } := by
  have hb : (("--capabilities" : String) == "-b") = false := by decide
  have hc : (("--capabilities" : String) == "--capabilities") = true := by decide
  by_cases h : capProc.returncode = 0 <;>
    simp [headset_init, run_command, gate_rejects, h, hb, hc, bne_iff_ne]

/-! Claim theorems. -/

/-- C1: for a battery-query invocation of `run_command` that passes the
capability gate and whose subprocess exits with code 0, the decoded stdout
`v` determines the state update: `v = "-2"` clears `connected` and leaves
`charge` unchanged; `v = "-1"` sets `charge := -1` and `connected := true`;
otherwise a parseable integer string sets `charge := int(v)` with no bounds
validation and `connected := true`. -/
theorem battery_parse_cases (s : HeadsetState) (rest : List String) (proc : ProcResult)
    (hg : gate_rejects s.capabilities "-b" = false) (hrc : proc.returncode = 0) :
    (proc.stdout = "-2" →
      run_command s ("-b" :: rest) proc =
        { state := some { s with connected := false }, invoked := true }) ∧
    (proc.stdout = "-1" →
      run_command s ("-b" :: rest) proc =
        { state := some { s with charge := -1, connected := true }, invoked := true }) ∧
    (∀ n : Int, proc.stdout ≠ "-2" → proc.stdout ≠ "-1" →
      pyIntParse proc.stdout = some n →
      run_command s ("-b" :: rest) proc =
        { state := some { s with charge := n, connected := true }, invoked := true }) := by
  unfold run_command
  simp only [List.headD_cons, hg, Bool.false_eq_true, if_false, hrc, bne_self_eq_false,
    beq_self_eq_true, if_true]
  refine ⟨?_, ?_, ?_⟩
  · intro h
    simp [h]
  · intro h
    simp [h]
  · intro n h2 h1 hp
    rw [if_neg (fun hc => h2 (by simpa using hc)),
      if_neg (fun hc => h1 (by simpa using hc)), hp]

/-- C1 witness: concrete instances of all three stdout cases with
capabilities `"b"`, exit code 0. -/
theorem battery_parse_cases_witness :
    run_command ⟨some "b", true, 5⟩ ["-b", "-c"] ⟨0, "-2"⟩ =
      { state := some ⟨some "b", false, 5⟩, invoked := true } ∧
    run_command ⟨some "b", false, 5⟩ ["-b", "-c"] ⟨0, "-1"⟩ =
      { state := some ⟨some "b", true, -1⟩, invoked := true } ∧
    run_command ⟨some "b", false, 5⟩ ["-b", "-c"] ⟨0, "75"⟩ =
      { state := some ⟨some "b", true, 75⟩, invoked := true } := by
  have h1 := battery_parse_cases ⟨some "b", true, 5⟩ ["-c"] ⟨0, "-2"⟩ (by decide) rfl
  have h2 := battery_parse_cases ⟨some "b", false, 5⟩ ["-c"] ⟨0, "-1"⟩ (by decide) rfl
  have h3 := battery_parse_cases ⟨some "b", false, 5⟩ ["-c"] ⟨0, "75"⟩ (by decide) rfl
  exact ⟨h1.1 rfl, h2.2.1 rfl, h3.2.2 75 (by decide) (by decide) (by decide)⟩

/-- C2: `charge_status` is a pure projection of the `charge` field alone; it
factors through `chargeStatusSpec`, the section-4.2 mapping sending `-2` to
"Disconnected", `-1` to "Charging" and any other integer to the percentage
label. -/
theorem charge_status_pure :
    ∀ s : HeadsetState, charge_status s = chargeStatusSpec s.charge := by
  intro s
  rfl

/-- C9: the argument-validation guard of `run_command` is the conjunction
`not isinstance(argument_list, list) and all(isinstance(elem, str) ...)`,
which is false for every Python list — even one containing non-string
elements — so the early-return branch is unreachable for list arguments and
execution always proceeds to the capability gate. -/
theorem validation_guard_unreachable :
    ∀ l : List PyVal, run_command_validation (.list l) = false := by
  intro l
  rfl

/-- C3: the subprocess is invoked exactly when capabilities are still unset
and the leading argument is the capability query, or capabilities are set and
the leading argument with its dashes removed occurs in the capability string;
in every other case `run_command` returns without invoking anything and
without mutating the state.  In particular a battery query against a
capability string not containing `"b"` leaves the whole state unchanged. -/
theorem capability_gate_invariant (s : HeadsetState) (arg0 : String)
    (rest : List String) (proc : ProcResult) :
    ((run_command s (arg0 :: rest) proc).invoked = true ↔
      (s.capabilities = none ∧ arg0 = "--capabilities") ∨
      (∃ caps : String, s.capabilities = some caps ∧
        pyStrIn (strip_dashes arg0) caps = true)) ∧
    ((run_command s (arg0 :: rest) proc).invoked = false →
      run_command s (arg0 :: rest) proc = { state := some s, invoked := false }) ∧
    (∀ caps : String, s.capabilities = some caps → pyStrIn "b" caps = false →
      run_command s ("-b" :: rest) proc = { state := some s, invoked := false }) := by
  refine ⟨?_, ?_, ?_⟩
  · rw [run_command_invoked_eq]
    cases hcap : s.capabilities with
    | none => simp [gate_rejects]
    | some caps => simp [gate_rejects]
  · intro h
    have hg : gate_rejects s.capabilities arg0 = true := by
      have := run_command_invoked_eq s arg0 rest proc
      rw [h] at this
      simpa using this.symm
    exact run_command_rejected s arg0 rest proc hg
  · intro caps hcap hb
    refine run_command_rejected s "-b" rest proc ?_
    rw [hcap]
    have : strip_dashes "-b" = "b" := rfl
    simp [gate_rejects, this, hb]

/-- C3 witness: a battery query against capability string `"ls"` is a no-op,
and the initial capability query does invoke the subprocess. -/
theorem capability_gate_invariant_witness :
    run_command ⟨some "ls", true, 7⟩ ("-b" :: ["-c"]) ⟨0, "50"⟩ =
      { state := some ⟨some "ls", true, 7⟩, invoked := false } ∧
    (run_command ⟨none, false, 0⟩ ("--capabilities" :: ["-c"]) ⟨0, "b"⟩).invoked = true := by
  have h1 := capability_gate_invariant ⟨some "ls", true, 7⟩ "-b" ["-c"] ⟨0, "50"⟩
  have h2 := capability_gate_invariant ⟨none, false, 0⟩ "--capabilities" ["-c"] ⟨0, "b"⟩
  exact ⟨h1.2.2 "ls" rfl (by decide), h2.1.mpr (Or.inl ⟨rfl, rfl⟩)⟩

/-- C4 counterexample: the claim says the battery parsing path never sets
`charge` to `-2` when the pre-state has `charge ≠ -2`, but the integer branch
does exactly that on stdout `"-02"` (which is not the literal `"-2"`, yet
`int("-02") = -2`): from pre-state charge 0 the post-state has charge `-2`. -/
theorem charge_minus_two_cex :
    (run_command ⟨some "b", true, 0⟩ ["-b", "-c"] ⟨0, "-02"⟩).state =
      some ⟨some "b", true, -2⟩ ∧ (0 : Int) ≠ -2 := by decide

/-- C4 amended: on a battery invocation with exit code 0, the `"-2"` sentinel
branch toggles only `connected` and leaves `charge` unchanged, and the
post-state can have `charge = -2` only when the pre-state already had
`charge = -2` or the stdout is an integer string that `int` parses to `-2`
(necessarily other than the literal `"-2"`, e.g. `"-02"`). -/
theorem charge_minus_two_only_from_integer_branch (s : HeadsetState)
    (rest : List String) (proc : ProcResult)
    (hg : gate_rejects s.capabilities "-b" = false) (hrc : proc.returncode = 0) :
    (proc.stdout = "-2" →
      (run_command s ("-b" :: rest) proc).state =
        some { s with connected := false }) ∧
    (∀ s2 : HeadsetState, (run_command s ("-b" :: rest) proc).state = some s2 →
      s2.charge = -2 → s.charge = -2 ∨ pyIntParse proc.stdout = some (-2)) := by
  unfold run_command
  simp only [List.headD_cons, hg, Bool.false_eq_true, if_false, hrc, bne_self_eq_false,
    beq_self_eq_true, if_true]
  constructor
  · intro h
    simp [h]
  · intro s2 hs2 hch
    split_ifs at hs2 with h2 h1
    · simp only [Option.some.injEq] at hs2
      subst hs2
      exact Or.inl hch
    · simp only [Option.some.injEq] at hs2
      subst hs2
      simp at hch
    · cases hp : pyIntParse proc.stdout with
      | none =>
        rw [hp] at hs2
        simp at hs2
      | some n =>
        rw [hp] at hs2
        simp only [Option.some.injEq] at hs2
        subst hs2
        exact Or.inr (congrArg some hch)

/-- C4 witness: the amended theorem applied at concrete inputs — the literal
`"-2"` sentinel leaves charge 5 untouched, and a post-state with charge `-2`
reached from charge 5 forces the `int`-parse disjunct. -/
theorem charge_minus_two_witness :
    ((run_command ⟨some "b", true, 5⟩ ("-b" :: ["-c"]) ⟨0, "-2"⟩).state =
      some ⟨some "b", false, 5⟩) ∧
    ((5 : Int) = -2 ∨ pyIntParse "-02" = some (-2)) := by
  have h1 := charge_minus_two_only_from_integer_branch ⟨some "b", true, 5⟩ ["-c"]
    ⟨0, "-2"⟩ (by decide) rfl
  have h2 := charge_minus_two_only_from_integer_branch ⟨some "b", true, 5⟩ ["-c"]
    ⟨0, "-02"⟩ (by decide) rfl
  exact ⟨h1.1 rfl, h2.2 ⟨some "b", true, -2⟩ (by decide) (by decide)⟩

/-- C5: when the capability gate passes and the subprocess exits with a
non-zero code, `connected` is set to false and nothing else changes:
`capabilities` (in particular an unset one) and `charge` keep their values. -/
theorem nonzero_exit_disconnects (s : HeadsetState) (arg0 : String) (rest : List String)
    (proc : ProcResult) (hg : gate_rejects s.capabilities arg0 = false)
    (hrc : proc.returncode ≠ 0) :
    run_command s (arg0 :: rest) proc =
      { state := some { s with connected := false }, invoked := true } ∧
    (run_command s (arg0 :: rest) proc).state.map HeadsetState.capabilities =
      some s.capabilities ∧
    (run_command s (arg0 :: rest) proc).state.map HeadsetState.charge = some s.charge := by
  have hb : (proc.returncode != 0) = true := bne_iff_ne.mpr hrc
  have key : run_command s (arg0 :: rest) proc =
      { state := some { s with connected := false }, invoked := true } := by
    unfold run_command
    simp only [List.headD_cons, hg, Bool.false_eq_true, if_false, hb, if_true]
  refine ⟨key, ?_, ?_⟩ <;> rw [key] <;> rfl

/-- C5 witness: a capability probe from the initial unset-capabilities state
whose process exits with code 1 flips `connected` off and leaves
`capabilities` unset. -/
theorem nonzero_exit_disconnects_witness :
    run_command ⟨none, true, 5⟩ ("--capabilities" :: ["-c"]) ⟨1, ""⟩ =
      { state := some ⟨none, false, 5⟩, invoked := true } :=
  (nonzero_exit_disconnects ⟨none, true, 5⟩ "--capabilities" ["-c"] ⟨1, ""⟩
    (by decide) (by decide)).1

/-- C6: the glyph and colour chosen by `create_icon` form a pure, total
function of `(connected, charge)` matching the spec's threshold mapping, and
the boundary values 81, 80, 41, 40, 21, 20 land in the stated bands. -/
theorem create_icon_pure_total :
    (∀ (connected : Bool) (charge : Int),
      (create_icon connected charge).color = icon_color_spec connected charge ∧
      (create_icon connected charge).icon = icon_glyph_spec connected charge) ∧
    ((create_icon true 81).color = ⟨0, 255, 0, 255⟩ ∧
      (create_icon true 80).color = ⟨234, 255, 0, 255⟩ ∧
      (create_icon true 41).color = ⟨234, 255, 0, 255⟩ ∧
      (create_icon true 40).color = ⟨255, 90, 0, 255⟩ ∧
      (create_icon true 21).color = ⟨255, 90, 0, 255⟩ ∧
      (create_icon true 20).color = ⟨255, 0, 0, 255⟩) := by
  constructor
  · intro connected charge
    cases connected with
    | false => exact ⟨rfl, rfl⟩
    | true =>
      constructor <;>
        · simp only [create_icon, icon_color_spec, icon_glyph_spec, Bool.not_true,
            Bool.false_eq_true, Bool.true_eq_false, if_false]
          split_ifs <;> rfl
  · exact ⟨by decide, by decide, by decide, by decide, by decide, by decide⟩

/-- C7 counterexample: the claim says `Headset.__init__` performs an initial
capability probe and then an initial battery probe, but even with a fully
successful capability probe (exit 0, capabilities `"lbs"`) the battery probe
is never executed, because it is guarded by `self.connected` which is still
false. -/
theorem init_battery_probe_cex :
    (headset_init ⟨0, "lbs"⟩ ⟨0, "50"⟩).capability_probe = true ∧
    (headset_init ⟨0, "lbs"⟩ ⟨0, "50"⟩).battery_probe = false := by decide

/-- C7 amended: the constructor performs the initial capability probe
unconditionally, but the subsequent battery probe is guarded by `connected`,
which is never true after a capability probe (whose parsing does not touch
`connected`), so the battery probe never runs in the constructor and the
final state always has `connected = false`. -/
theorem headset_init_probes :
    ∀ capProc batProc : ProcResult,
      (headset_init capProc batProc).capability_probe = true ∧
      (headset_init capProc batProc).battery_probe = false ∧
      (headset_init capProc batProc).final.map HeadsetState.connected = some false := by
  intro capProc batProc
  rw [headset_init_eq]
  by_cases h : capProc.returncode = 0 <;> simp [h]

/-- C8: menu construction is idempotent for every fixed capability string
(including unset): starting from the freshly constructed empty menus, running
`set_menu` twice yields exactly the visible action lists of running it once. -/
theorem set_menu_idempotent :
    ∀ capabilities : Option String,
      set_menu (set_menu ⟨[], []⟩ capabilities) capabilities =
        set_menu ⟨[], []⟩ capabilities := by
  intro capabilities
  cases capabilities with
  | none => decide
  | some caps =>
    simp only [set_menu]
    generalize pyStrIn "l" caps = hasl
    generalize pyStrIn "b" caps = hasb
    generalize pyStrIn "s" caps = hass
    cases hasl <;> cases hasb <;> cases hass <;> decide

/-- C10: a capability query that passes the gate and exits 0 assigns only the
`capabilities` field (the decoded stdout verbatim) and leaves `connected` and
`charge` unchanged; consequently, after the constructor's capability probe
succeeds, `connected` still holds its initial value `false`. -/
theorem capabilities_probe_frame (s : HeadsetState) (rest : List String)
    (proc : ProcResult) (hg : gate_rejects s.capabilities "--capabilities" = false)
    (hrc : proc.returncode = 0) :
    run_command s ("--capabilities" :: rest) proc =
      { state := some { s with capabilities := some proc.stdout }, invoked := true } ∧
    (∀ capProc batProc : ProcResult, capProc.returncode = 0 →
      (headset_init capProc batProc).final.map HeadsetState.connected = some false) := by
  constructor
  · have hb : (("--capabilities" : String) == "-b") = false := by decide
    unfold run_command
    simp only [List.headD_cons, hg, Bool.false_eq_true, if_false, hrc, bne_self_eq_false,
      hb, beq_self_eq_true, if_true]
  · intro capProc batProc h
    rw [headset_init_eq, if_pos h]
    rfl

/-- C10 witness: the initial capability probe returning `"lbs"` stores the
string and leaves `connected = false` and `charge = 0`. -/
theorem capabilities_probe_frame_witness :
    run_command ⟨none, false, 0⟩ ("--capabilities" :: ["-c"]) ⟨0, "lbs"⟩ =
      { state := some ⟨some "lbs", false, 0⟩, invoked := true } ∧
    (headset_init ⟨0, "lbs"⟩ ⟨0, "50"⟩).final.map HeadsetState.connected = some false := by
  have h := capabilities_probe_frame ⟨none, false, 0⟩ ["-c"] ⟨0, "lbs"⟩ (by decide) rfl
  exact ⟨h.1, h.2 ⟨0, "lbs"⟩ ⟨0, "50"⟩ rfl⟩
